import Mathlib

/-!
Verification of the TGBed-self storage core.

The definitions below are a shallow embedding of the JavaScript sources:
  functions/utils/s3client.js      (AWS Signature V4 signing, S3 client)
  functions/api/chunked-upload/init.js (chunked-upload session init / status)
  functions/utils/guest.js         (guest quota guard)
  the Discord and HuggingFace storage utility modules.

Platform primitives (SHA-256, HMAC-SHA256, URL parsing, fetch, the KV
store, the clock and the random source) are modelled as explicit inputs:
pure hash callbacks, parsed URL records, response records and store
states.  Everything else is translated statement by statement from the
JavaScript.
-/

namespace TGBed

/-! ## Byte and string helpers (TextEncoder / hex formatting) -/

/-- UTF-8 bytes of one character, as the TextEncoder would produce. -/
def utf8Bytes (c : Char) : List Nat :=
  let n := c.toNat
  if n < 0x80 then [n]
  else if n < 0x800 then [0xC0 + n / 64, 0x80 + n % 64]
  else if n < 0x10000 then [0xE0 + n / 4096, 0x80 + (n / 64) % 64, 0x80 + n % 64]
  else [0xF0 + n / 262144, 0x80 + (n / 4096) % 64, 0x80 + (n / 64) % 64, 0x80 + n % 64]

/-- UTF-8 encoding of a string (TextEncoder.encode). -/
def strBytes (s : String) : List Nat :=
  (s.toList.map utf8Bytes).flatten

def hexDigitUpper (n : Nat) : Char :=
  if n < 10 then Char.ofNat (48 + n) else Char.ofNat (55 + n)

def hexDigitLower (n : Nat) : Char :=
  if n < 10 then Char.ofNat (48 + n) else Char.ofNat (87 + n)

def byteHexUpper (b : Nat) : String :=
  String.mk [hexDigitUpper (b / 16), hexDigitUpper (b % 16)]

/-- One byte as two lowercase hex digits (b.toString(16).padStart(2, "0")). -/
def byteHexLower (b : Nat) : String :=
  String.mk [hexDigitLower (b / 16), hexDigitLower (b % 16)]

/-- arrayBufferToHex from s3client.js: lowercase hex of a byte sequence. -/
def arrayBufferToHex (bs : List Nat) : String :=
  String.join (bs.map byteHexLower)

/-- Join a list of strings with a separator (Array.prototype.join). -/
def joinSep (sep : String) : List String → String
  | [] => ""
  | [a] => a
  | a :: b :: rest => a ++ sep ++ joinSep sep (b :: rest)

def strTake (n : Nat) (s : String) : String := String.mk (s.toList.take n)

def strDrop (n : Nat) (s : String) : String := String.mk (s.toList.drop n)

/-- Remove every occurrence of the given characters (the regex replace
with a character class and the empty replacement). -/
def stripChars (remove : List Char) (s : String) : String :=
  String.mk (s.toList.filter (fun c => !(remove.contains c)))

/-- Whether pat matches at the front of the list. -/
def matchesFront : List Char → List Char → Bool
  | [], _ => true
  | _ :: _, [] => false
  | a :: as, b :: bs => a == b && matchesFront as bs

/-- Whether pat occurs as a contiguous substring. -/
def occursIn (pat : List Char) : List Char → Bool
  | [] => pat.isEmpty
  | c :: rest => matchesFront pat (c :: rest) || occursIn pat rest

def strContainsSub (s pat : String) : Bool := occursIn pat.toList s.toList

/-- Replace every non-overlapping occurrence of a nonempty literal
pattern, left to right (the global-regex literal replace of the source);
the fuel is the input length, enough since every step consumes at least
one character. -/
def replaceAux (pat repl : List Char) : Nat → List Char → List Char
  | 0, l => l
  | _ + 1, [] => []
  | fuel + 1, c :: rest =>
    if matchesFront pat (c :: rest) && !pat.isEmpty then
      repl ++ replaceAux pat repl fuel (List.drop (pat.length - 1) rest)
    else c :: replaceAux pat repl fuel rest

def jsReplaceAll (s pat repl : String) : String :=
  String.mk (replaceAux pat.toList repl.toList s.toList.length s.toList)

/-- The ASCII whitespace String.prototype.trim removes. -/
def isJsSpace (c : Char) : Bool :=
  c == ' ' || c == '\t' || c == '\n' || c == '\r'

/-- JS String.prototype.trim over the ASCII whitespace characters. -/
def jsTrim (s : String) : String :=
  String.mk (((s.toList.dropWhile isJsSpace).reverse.dropWhile
    isJsSpace).reverse)

/-- JS toLowerCase over the ASCII letters (the header names this code
lowercases are ASCII). -/
def jsToLower (s : String) : String :=
  String.mk (s.toList.map Char.toLower)

/-! ## URI encoding (uriEncode in s3client.js) -/

/-- Characters kept verbatim by encodeURIComponent:
A-Z a-z 0-9 and - _ . ! ~ * and the apostrophe and parentheses. -/
def uriKeptByEncodeURIComponent (b : Nat) : Bool :=
  (65 ≤ b && b ≤ 90) || (97 ≤ b && b ≤ 122) || (48 ≤ b && b ≤ 57) ||
  b == 45 || b == 95 || b == 46 || b == 33 || b == 126 || b == 42 ||
  b == 39 || b == 40 || b == 41

/-- encodeURIComponent: UTF-8 percent-encoding with uppercase hex digits. -/
def encodeURIComponent (s : String) : String :=
  String.join ((strBytes s).map (fun b =>
    if uriKeptByEncodeURIComponent b then String.mk [Char.ofNat b]
    else "%" ++ byteHexUpper b))

/-- uriEncode from s3client.js: encodeURIComponent followed by the extra
AWS replacements, and the slash restored when encodeSlash is false. -/
def uriEncode (s : String) (encodeSlash : Bool) : String :=
  let encoded := encodeURIComponent s
  let encoded := jsReplaceAll (jsReplaceAll (jsReplaceAll (jsReplaceAll
    (jsReplaceAll encoded "!" "%21") "\x27" "%27") "(" "%28") ")" "%29")
    "*" "%2A"
  if !encodeSlash then jsReplaceAll encoded "%2F" "/" else encoded

/-! ## Sorting.  The source sorts with Array.prototype.sort and a
comparator built from String.prototype.localeCompare.  localeCompare is
a platform primitive (a locale-sensitive ICU collation), so it is passed
in as an explicit callback, like the crypto; the lexicographic
(code-point) comparator the AWS protocol prescribes is a particular
choice of that callback, defined below as codePointCompare. -/

def insertSorted (le : α → α → Bool) (a : α) : List α → List α
  | [] => [a]
  | b :: bs => if le a b then a :: b :: bs else b :: insertSorted le a bs

def sortBy (le : α → α → Bool) : List α → List α
  | [] => []
  | a :: rest => insertSorted le a (sortBy le rest)

/-- Array.prototype.sort with a numeric comparator: stable, an element
stays before a later one when the comparator is at most 0. -/
def jsSort (cmp : α → α → Int) : List α → List α :=
  sortBy (fun a b => decide (cmp a b ≤ 0))

/-- The pattern x || y on comparator results: y when x is the falsy 0. -/
def jsOrInt (x y : Int) : Int := if x = 0 then y else x

/-- The query-pair comparator of s3client.js line 76, over the runtime
collation: compare keys, then values. -/
def queryComparator (lc : String → String → Int)
    (p q : String × String) : Int :=
  jsOrInt (lc p.1 q.1) (lc p.2 q.2)

/-- The header comparator of s3client.js line 82: compare by name. -/
def headerComparator (lc : String → String → Int)
    (p q : String × String) : Int :=
  lc p.1 q.1

def codePointCompareList : List Char → List Char → Int
  | [], [] => 0
  | [], _ :: _ => -1
  | _ :: _, [] => 1
  | a :: as, b :: bs =>
    if a.toNat < b.toNat then -1
    else if b.toNat < a.toNat then 1
    else codePointCompareList as bs

/-- Plain lexicographic comparison by code point: the ordering the AWS
signature protocol prescribes for query pairs and header names. -/
def codePointCompare (s t : String) : Int :=
  codePointCompareList s.toList t.toList

/-! ## Header maps (plain JS objects: ordered keys, assignment replaces
in place or appends) -/

abbrev Headers := List (String × String)

def setHeader : Headers → String → String → Headers
  | [], k, v => [(k, v)]
  | (k0, v0) :: rest, k, v =>
    if k0 == k then (k0, v) :: rest else (k0, v0) :: setHeader rest k v

def getHeader : Headers → String → Option String
  | [], _ => none
  | (k0, v0) :: rest, k => if k0 == k then some v0 else getHeader rest k

/-! ## The signing context -/

structure Credentials where
  accessKeyId : String
  secretAccessKey : String
  region : String
  service : String

/-- The result of `new URL(url)`: the parts signRequest reads. -/
structure ParsedURL where
  host : String
  pathname : String
  searchParams : List (String × String)

/-- The WebCrypto primitives, as pure callbacks: sha256Hex returns a hex
digest of a string, hmacSha256 maps a raw key and raw data to raw mac
bytes.  All theorems hold for every choice of these callbacks. -/
structure Crypto where
  sha256Hex : String → String
  hmacSha256 : List Nat → List Nat → List Nat

/-! ## signRequest (s3client.js lines 54-112), with the clock passed in
as the ISO-8601 string the code derives its timestamps from. -/

def signRequest (c : Crypto) (lc : String → String → Int)
    (method : String) (url : ParsedURL)
    (headers : Headers) (body : Option String) (credentials : Credentials)
    (isoNow : String) : Headers :=
  let dateStamp := strTake 8 (stripChars ['-', ':', '.', 'T', 'Z'] isoNow)
  let amzDate := dateStamp ++ "T" ++
    strTake 6 (strDrop 9 (stripChars ['-', ':', '.', 'Z'] isoNow)) ++ "Z"
  let payloadHash := match body with
    | some b => c.sha256Hex b
    | none => c.sha256Hex ""
  let headers := setHeader headers "x-amz-date" amzDate
  let headers := setHeader headers "x-amz-content-sha256" payloadHash
  let headers := setHeader headers "host" url.host
  let canonicalUri := uriEncode url.pathname false
  let canonicalQueryString := joinSep "&"
    ((jsSort (queryComparator lc) url.searchParams).map
      (fun kv => uriEncode kv.1 true ++ "=" ++ uriEncode kv.2 true))
  let sortedHeaders := jsSort (headerComparator lc)
    (headers.map (fun kv => (jsTrim (jsToLower kv.1), jsTrim kv.2)))
  let canonicalHeaders :=
    String.join (sortedHeaders.map (fun kv => kv.1 ++ ":" ++ kv.2 ++ "\n"))
  let signedHeaders := joinSep ";" (sortedHeaders.map (fun kv => kv.1))
  let canonicalRequest := joinSep "\n"
    [method, canonicalUri, canonicalQueryString,
     canonicalHeaders, signedHeaders, payloadHash]
  let credentialScope := dateStamp ++ "/" ++ credentials.region ++ "/" ++
    credentials.service ++ "/aws4_request"
  let stringToSign := joinSep "\n"
    ["AWS4-HMAC-SHA256", amzDate, credentialScope, c.sha256Hex canonicalRequest]
  let kDate := c.hmacSha256 (strBytes ("AWS4" ++ credentials.secretAccessKey))
    (strBytes dateStamp)
  let kRegion := c.hmacSha256 kDate (strBytes credentials.region)
  let kService := c.hmacSha256 kRegion (strBytes credentials.service)
  let kSigning := c.hmacSha256 kService (strBytes "aws4_request")
  let signature := arrayBufferToHex (c.hmacSha256 kSigning (strBytes stringToSign))
  setHeader headers "Authorization"
    ("AWS4-HMAC-SHA256 Credential=" ++ credentials.accessKeyId ++ "/" ++
     credentialScope ++ ", SignedHeaders=" ++ signedHeaders ++
     ", Signature=" ++ signature)

/-! ## Spec-side signing algorithm (from spec.md section 4.1, steps 1-6),
kept separate so that signRequest can be compared against it. -/

def dateStampOf (isoNow : String) : String :=
  strTake 8 (stripChars ['-', ':', '.', 'T', 'Z'] isoNow)

def amzDateOf (isoNow : String) : String :=
  dateStampOf isoNow ++ "T" ++
    strTake 6 (strDrop 9 (stripChars ['-', ':', '.', 'Z'] isoNow)) ++ "Z"

/-- Step 1: the content hash of the body, hash of empty content if absent. -/
def specContentHash (c : Crypto) (body : Option String) : String :=
  match body with
  | some b => c.sha256Hex b
  | none => c.sha256Hex ""

/-- The header map as signed: the required date, content-hash and host
entries added to the caller headers. -/
def specSignedHeaderMap (c : Crypto) (url : ParsedURL) (headers : Headers)
    (body : Option String) (isoNow : String) : Headers :=
  setHeader
    (setHeader
      (setHeader headers "x-amz-date" (amzDateOf isoNow))
      "x-amz-content-sha256" (specContentHash c body))
    "host" url.host

/-- Lower-cased and trimmed header name/value pairs sorted by name in
lexicographic code-point order. -/
def specLoweredHeaders (headers : Headers) : Headers :=
  jsSort (headerComparator codePointCompare)
    (headers.map (fun kv => (jsTrim (jsToLower kv.1), jsTrim kv.2)))

/-- The signed-header list: the sorted lower-cased names joined by semicolons. -/
def specSignedHeaderList (headers : Headers) : String :=
  joinSep ";" ((specLoweredHeaders headers).map (fun kv => kv.1))

/-- Step 2: the canonical request, built from the URI-encoded path with
slashes preserved, the lexicographically sorted URI-encoded query pairs,
the lower-cased trimmed header pairs sorted by name, the signed-header
list, and the content hash. -/
def specCanonicalRequest (c : Crypto) (method : String) (url : ParsedURL)
    (headers : Headers) (body : Option String) : String :=
  joinSep "\n"
    [method,
     uriEncode url.pathname false,
     joinSep "&" ((jsSort (queryComparator codePointCompare)
       url.searchParams).map
       (fun kv => uriEncode kv.1 true ++ "=" ++ uriEncode kv.2 true)),
     String.join ((specLoweredHeaders headers).map
       (fun kv => kv.1 ++ ":" ++ kv.2 ++ "\n")),
     specSignedHeaderList headers,
     specContentHash c body]

/-- The credential scope: date, region, service and the fixed terminal string. -/
def specCredentialScope (dateStamp : String) (cr : Credentials) : String :=
  dateStamp ++ "/" ++ cr.region ++ "/" ++ cr.service ++ "/aws4_request"

/-- Step 3: the string-to-sign: algorithm tag, timestamp, credential
scope and the hash of the canonical request. -/
def specStringToSign (c : Crypto) (amzDate dateStamp : String)
    (cr : Credentials) (canonicalRequest : String) : String :=
  joinSep "\n"
    ["AWS4-HMAC-SHA256", amzDate, specCredentialScope dateStamp cr,
     c.sha256Hex canonicalRequest]

/-- Step 4: the signing key, four chained HMAC-SHA256 operations seeded
from AWS4 plus the secret key, over date, region, service and the fixed
terminal string, in that order. -/
def specSigningKey (c : Crypto) (cr : Credentials) (dateStamp : String) : List Nat :=
  c.hmacSha256
    (c.hmacSha256
      (c.hmacSha256
        (c.hmacSha256 (strBytes ("AWS4" ++ cr.secretAccessKey)) (strBytes dateStamp))
        (strBytes cr.region))
      (strBytes cr.service))
    (strBytes "aws4_request")

/-- Step 5: the final signature, HMAC-SHA256 of the string-to-sign under
the derived key, hex-encoded. -/
def specSignature (c : Crypto) (method : String) (url : ParsedURL)
    (headers : Headers) (body : Option String) (cr : Credentials)
    (isoNow : String) : String :=
  arrayBufferToHex
    (c.hmacSha256 (specSigningKey c cr (dateStampOf isoNow))
      (strBytes (specStringToSign c (amzDateOf isoNow) (dateStampOf isoNow) cr
        (specCanonicalRequest c method url
          (specSignedHeaderMap c url headers body isoNow) body))))

/-- Step 6: the Authorization header value. -/
def specAuthorizationValue (c : Crypto) (method : String) (url : ParsedURL)
    (headers : Headers) (body : Option String) (cr : Credentials)
    (isoNow : String) : String :=
  "AWS4-HMAC-SHA256 Credential=" ++ cr.accessKeyId ++ "/" ++
    specCredentialScope (dateStampOf isoNow) cr ++ ", SignedHeaders=" ++
    specSignedHeaderList (specSignedHeaderMap c url headers body isoNow) ++
    ", Signature=" ++ specSignature c method url headers body cr isoNow

/-! ## Decimal strings: JS String(n) and parseInt, for the counters and
the numeric environment options. -/

def natDigitsAux (fuel n : Nat) : List Char :=
  match fuel with
  | 0 => []
  | fuel + 1 =>
    if n < 10 then [Char.ofNat (48 + n)]
    else natDigitsAux fuel (n / 10) ++ [Char.ofNat (48 + n % 10)]

/-- Decimal digits of a natural number, most significant first. -/
def natDigits (n : Nat) : List Char := natDigitsAux (n + 1) n

/-- JS String(n) for a natural number: decimal digits. -/
def natToString (n : Nat) : String := String.mk (natDigits n)

/-- JS parseInt on the nonnegative decimal strings this code stores and
reads from its configuration; none models NaN. -/
def parseJsInt (s : String) : Option Nat :=
  let ds := s.toList.takeWhile Char.isDigit
  if ds.isEmpty then none
  else some (ds.foldl (fun acc c => acc * 10 + (c.toNat - 48)) 0)

/-- The pattern parseInt(x) || d: the default applies when x is missing,
unparsable, or parses to the falsy 0. -/
def parseIntOrDefault (s : Option String) (dflt : Nat) : Nat :=
  match s with
  | none => dflt
  | some str =>
    match parseJsInt str with
    | none => dflt
    | some 0 => dflt
    | some n => n

/-- JS truthiness of an optional string: absent and empty are falsy. -/
def truthyStr : Option String → Bool
  | none => false
  | some s => !(s == "")

/-- JS truthiness of an optional number: absent and zero are falsy. -/
def truthyNat : Option Nat → Bool
  | none => false
  | some n => !(n == 0)

/-! ## The external key-value store (env.img_url), as a state: missing
binding, failing store, or an available list of entries with TTLs. -/

structure KVEntry where
  key : String
  value : String
  expirationTtl : Option Nat

inductive KVState where
  | absent
  | failing (msg : String)
  | avail (entries : List KVEntry)

def kvGetEntry : List KVEntry → String → Option String
  | [], _ => none
  | e :: rest, k => if e.key == k then some e.value else kvGetEntry rest k

def kvPutEntry : List KVEntry → String → String → Option Nat → List KVEntry
  | [], k, v, ttl => [⟨k, v, ttl⟩]
  | e :: rest, k, v, ttl =>
    if e.key == k then ⟨k, v, ttl⟩ :: rest else e :: kvPutEntry rest k v ttl

/-! ## Chunked-upload session init (functions/api/chunked-upload/init.js) -/

def CHUNK_SIZE : Nat := 5 * 1024 * 1024

def MAX_FILE_SIZE : Nat := 100 * 1024 * 1024

/-- The parsed JSON body of the init request; absent fields are none. -/
structure InitBody where
  fileName : Option String
  fileSize : Option Nat
  fileType : Option String
  totalChunks : Option Nat
  storageMode : Option String

/-- The session record the handler persists (the uploadTask object). -/
structure UploadTask where
  uploadId : String
  fileName : String
  fileSize : Nat
  fileType : Option String
  totalChunks : Nat
  storageMode : String
  uploadedChunks : List Nat
  createdAt : Nat
  status : String
deriving DecidableEq

/-- The env.img_url.put call made on success: key, record and TTL. -/
structure SessionPut where
  key : String
  value : UploadTask
  expirationTtl : Nat
deriving DecidableEq

structure InitSuccess where
  stored : SessionPut
  respSuccess : Bool
  respUploadId : String
  respChunkSize : Nat
deriving DecidableEq

inductive InitOutcome where
  | badRequest (msg : String)
  | ok (r : InitSuccess)
deriving DecidableEq

def validModes : List String := ["telegram", "r2", "s3", "discord", "huggingface"]

/-- generateUploadId over the 16 bytes crypto.getRandomValues filled in. -/
def generateUploadId (randomBytes : List Nat) : String :=
  String.join (randomBytes.map byteHexLower)

/-- The POST handler after authentication, with the random bytes and the
clock passed in (init.js lines 35-82). -/
def initPost (body : InitBody) (randomBytes : List Nat) (nowMs : Nat) : InitOutcome :=
  if !(truthyStr body.fileName) || !(truthyNat body.fileSize) ||
      !(truthyNat body.totalChunks) then
    .badRequest "缺少必要参数"
  else if body.fileSize.getD 0 > MAX_FILE_SIZE then
    .badRequest "文件大小超过限制 (最大 100MB)"
  else
    let uploadId := generateUploadId randomBytes
    let normalizedStorage :=
      match body.storageMode with
      | some m => if validModes.contains m then m else "telegram"
      | none => "telegram"
    .ok
      { stored :=
          { key := "upload:" ++ uploadId
            value :=
              { uploadId := uploadId
                fileName := body.fileName.getD ""
                fileSize := body.fileSize.getD 0
                fileType := body.fileType
                totalChunks := body.totalChunks.getD 0
                storageMode := normalizedStorage
                uploadedChunks := []
                createdAt := nowMs
                status := "pending" }
            expirationTtl := 3600 }
        respSuccess := true
        respUploadId := uploadId
        respChunkSize := CHUNK_SIZE }

/-- Responses of the GET status handler (init.js lines 97-132). -/
inductive StatusOutcome where
  | badRequest
  | notFound
  | okTask (t : UploadTask)
  | serverError (msg : String)
deriving DecidableEq

/-- The GET status handler, with the store read passed in as its outcome:
an exception, an absent record, or the parsed session. -/
def getStatus (uploadId : Option String)
    (kvRead : Except String (Option UploadTask)) : StatusOutcome :=
  if !(truthyStr uploadId) then .badRequest
  else
    match kvRead with
    | .error e => .serverError e
    | .ok none => .notFound
    | .ok (some t) => .okTask t

/-! ## Guest quota guard (functions/utils/guest.js) -/

structure GuestEnv where
  GUEST_UPLOAD : Option String
  GUEST_MAX_FILE_SIZE : Option String
  GUEST_DAILY_LIMIT : Option String

structure GuestCheck where
  allowed : Bool
  reason : Option String
  status : Option Nat
  remaining : Option Nat
deriving DecidableEq

def guestKey (ip today : String) : String := "guest:" ++ ip ++ ":" ++ today

/-- The counter a stored value denotes: parseInt(countStr) || 0. -/
def storedCount (es : List KVEntry) (key : String) : Nat :=
  match kvGetEntry es key with
  | none => 0
  | some s => (parseJsInt s).getD 0

/-- checkGuestUpload (guest.js lines 27-69) with the client IP, the UTC
day string and the store state passed in. -/
def checkGuestUpload (env : GuestEnv) (ip today : String) (fileSize : Nat)
    (kv : KVState) : GuestCheck :=
  if !(env.GUEST_UPLOAD == some "true") then
    { allowed := false, reason := some "未启用访客上传，请登录后操作"
      status := some 401, remaining := none }
  else
    let maxSize := parseIntOrDefault env.GUEST_MAX_FILE_SIZE (5 * 1024 * 1024)
    if fileSize > maxSize then
      { allowed := false, reason := some "访客上传限制：文件大小超过上限"
        status := some 413, remaining := none }
    else
      let dailyLimit := parseIntOrDefault env.GUEST_DAILY_LIMIT 10
      let kvKey := guestKey ip today
      match kv with
      | .absent =>
        { allowed := true, reason := none, status := none, remaining := none }
      | .failing _ =>
        { allowed := true, reason := none, status := none, remaining := none }
      | .avail entries =>
        let currentCount := storedCount entries kvKey
        if currentCount ≥ dailyLimit then
          { allowed := false, reason := some "访客每日上传上限，今日已用完"
            status := some 429, remaining := some 0 }
        else
          { allowed := true, reason := none, status := none
            remaining := some (dailyLimit - currentCount) }

/-- incrementGuestCount (guest.js lines 74-90): best-effort read,
increment, write with a 24-hour TTL; a missing or failing store and a
disabled guest mode leave the state unchanged. -/
def incrementGuestCount (env : GuestEnv) (ip today : String)
    (kv : KVState) : KVState :=
  match kv with
  | .absent => .absent
  | .failing m => .failing m
  | .avail entries =>
    if !(env.GUEST_UPLOAD == some "true") then .avail entries
    else
      let kvKey := guestKey ip today
      let currentCount := storedCount entries kvKey
      .avail (kvPutEntry entries kvKey (natToString (currentCount + 1)) (some 86400))

/-! ## S3 client response handling (s3client.js lines 180-262) -/

structure HttpResponse where
  status : Nat
  body : String
  headers : Headers
deriving DecidableEq

/-- Response.ok: the status lies in the 2xx range. -/
def respOk (r : HttpResponse) : Bool := 200 ≤ r.status && r.status ≤ 299

/-- getObject after the fetch: 206 tolerated, 404 mapped to null, any
other non-success thrown with the response text (lines 195-201). -/
def getObjectHandle (response : HttpResponse) :
    Except String (Option HttpResponse) :=
  if !(respOk response) && !(response.status == 206) then
    if response.status == 404 then .ok none
    else .error ("S3 GetObject failed (" ++ natToString response.status ++ "): "
      ++ response.body)
  else .ok (some response)

structure HeadInfo where
  contentLength : Option Nat
  contentType : Option String
  etag : Option String
  lastModified : Option String
deriving DecidableEq

/-- Case-insensitive fetch-Headers lookup. -/
def respHeaderGet (r : HttpResponse) (k : String) : Option String :=
  getHeader (r.headers.map (fun kv => (jsToLower kv.1, kv.2))) (jsToLower k)

/-- headObject after the fetch: 404 mapped to null, any other
non-success thrown with only the status in the message, and on success
the metadata read from the response headers (lines 236-247). -/
def headObjectHandle (response : HttpResponse) :
    Except String (Option HeadInfo) :=
  if !(respOk response) then
    if response.status == 404 then .ok none
    else .error ("S3 HeadObject failed (" ++ natToString response.status ++ ")")
  else
    .ok (some
      { contentLength :=
          parseJsInt (match respHeaderGet response "content-length" with
            | none => "0"
            | some s => if s == "" then "0" else s)
        contentType := respHeaderGet response "content-type"
        etag := respHeaderGet response "etag"
        lastModified := respHeaderGet response "last-modified" })

/-- deleteObject after the fetch: 204 tolerated, any other non-success
thrown with the response text (lines 216-221). -/
def deleteObjectHandle (response : HttpResponse) : Except String Bool :=
  if !(respOk response) && !(response.status == 204) then
    .error ("S3 DeleteObject failed (" ++ natToString response.status ++ "): "
      ++ response.body)
  else .ok true

/-- deleteObject including the unguarded fetch itself: a transport
failure propagates, there is no try/catch in the method. -/
def deleteObjectRun (fetchResult : Except String HttpResponse) :
    Except String Bool :=
  match fetchResult with
  | .error e => .error e
  | .ok r => deleteObjectHandle r

/-! ## Discord storage module -/

structure DiscordAttachment where
  id : String
  filename : String
  size : Nat
deriving DecidableEq

structure DiscordMessage where
  channel_id : String
  id : String
  attachments : List DiscordAttachment
deriving DecidableEq

/-- The outcome of the Discord upload fetch plus JSON parse: the status,
the message field of an error body when present, and the parsed message
object used on the success path. -/
structure DiscordResponse where
  status : Nat
  errMessage : Option String
  message : DiscordMessage
deriving DecidableEq

abbrev DiscordFetch := Except String DiscordResponse

structure DiscordResult where
  success : Bool
  channelId : Option String
  messageId : Option String
  attachmentId : Option String
  filename : Option String
  size : Option Nat
  error : Option String
deriving DecidableEq

def discordFailure (e : String) : DiscordResult :=
  { success := false, channelId := none, messageId := none
    attachmentId := none, filename := none, size := none, error := some e }

/-- The pattern a || b on strings: b when a is missing or empty. -/
def jsOrStr (a : Option String) (b : String) : String :=
  match a with
  | some s => if s == "" then b else s
  | none => b

/-- The shared response handling of uploadViaWebhook and uploadViaBot
(the two bodies are textually identical in the source). -/
def processDiscordUploadResponse (fetchResult : DiscordFetch) : DiscordResult :=
  match fetchResult with
  | .error e => discordFailure e
  | .ok r =>
    if !(200 ≤ r.status && r.status ≤ 299) then
      discordFailure (jsOrStr r.errMessage ("HTTP " ++ natToString r.status))
    else
      match r.message.attachments with
      | [] => discordFailure "未获取到附件信息"
      | a :: _ =>
        { success := true, channelId := some r.message.channel_id
          messageId := some r.message.id, attachmentId := some a.id
          filename := some a.filename, size := some a.size, error := none }

def uploadViaWebhook (fetchResult : DiscordFetch) : DiscordResult :=
  processDiscordUploadResponse fetchResult

def uploadViaBot (fetchResult : DiscordFetch) : DiscordResult :=
  processDiscordUploadResponse fetchResult

structure DiscordEnv where
  DISCORD_WEBHOOK_URL : Option String
  DISCORD_BOT_TOKEN : Option String
  DISCORD_CHANNEL_ID : Option String

/-- uploadToDiscord dispatch (middleware module lines 23-31), with the
outcome each delivery path would see passed in. -/
def uploadToDiscord (env : DiscordEnv)
    (webhookFetch botFetch : DiscordFetch) : DiscordResult :=
  if truthyStr env.DISCORD_WEBHOOK_URL then
    uploadViaWebhook webhookFetch
  else if truthyStr env.DISCORD_BOT_TOKEN && truthyStr env.DISCORD_CHANNEL_ID then
    uploadViaBot botFetch
  else
    discordFailure "Discord 未配置 Webhook URL 或 Bot Token"

/-- deleteDiscordMessage (middleware module lines 158-179): false without
a bot token, false on a transport failure, otherwise ok or 204. -/
def deleteDiscordMessage (botToken : Option String)
    (fetchResult : Except String HttpResponse) : Bool :=
  if !(truthyStr botToken) then false
  else
    match fetchResult with
    | .error _ => false
    | .ok r => respOk r || r.status == 204

/-- deleteHuggingFaceFile from the HuggingFace module: false without
full configuration, false on a transport failure, otherwise response.ok. -/
def deleteHuggingFaceFile (hfToken hfRepo : Option String)
    (fetchResult : Except String HttpResponse) : Bool :=
  if !(truthyStr hfToken && truthyStr hfRepo) then false
  else
    match fetchResult with
    | .error _ => false
    | .ok r => respOk r

def InitOutcome.isBadRequest : InitOutcome → Bool
  | .badRequest _ => true
  | .ok _ => false

/-- Repeated incrementGuestCount calls, as in the rate-limit scenario. -/
def iterIncrement (env : GuestEnv) (ip today : String) : Nat → KVState → KVState
  | 0, kv => kv
  | n + 1, kv => incrementGuestCount env ip today (iterIncrement env ip today n kv)

/-- A concrete init body used to instantiate theorems at evaluable inputs. -/
def initBodyExample : InitBody :=
  { fileName := some "a.png", fileSize := some 1000
    fileType := some "image/png", totalChunks := some 2
    storageMode := some "s3" }

/-- The session-init outcome at initBodyExample with random bytes 0 and 1
and clock 5. -/
def initSuccessExample : InitSuccess :=
  { stored :=
      { key := "upload:0001"
        value :=
          { uploadId := "0001", fileName := "a.png", fileSize := 1000
            fileType := some "image/png", totalChunks := 2
            storageMode := "s3", uploadedChunks := [], createdAt := 5
            status := "pending" }
        expirationTtl := 3600 }
    respSuccess := true
    respUploadId := "0001"
    respChunkSize := CHUNK_SIZE }

/-- A collation modelling the runtime localeCompare (the ICU default
collation of the Cloudflare runtime) at the inputs this development
evaluates it on: primary strength compares case-folded code points, so
the lowercase letter a orders before the uppercase B, unlike code-point
order; ties fall back to code-point order.  Only its values at the
concrete strings of the failing input matter. -/
def icuStyleCompare (s t : String) : Int :=
  let p := codePointCompare (jsToLower s) (jsToLower t)
  if p = 0 then codePointCompare s t else p

/-- A concrete stand-in for the WebCrypto callbacks, used to instantiate
universally quantified theorems at evaluable inputs. -/
def mockCrypto : Crypto :=
  { sha256Hex := fun s => "sha256(" ++ s ++ ")"
    hmacSha256 := fun k d => 0 :: (k ++ d) }

/-! ## Theorems -/

theorem getHeader_setHeader_self (hs : Headers) (k v : String) :
    getHeader (setHeader hs k v) k = some v := by
  induction hs with
  | nil => simp [setHeader, getHeader]
  | cons p rest ih =>
    obtain ⟨k0, v0⟩ := p
    by_cases h : (k0 == k) = true
    · simp [setHeader, getHeader, h]
    · simp only [Bool.not_eq_true] at h
      simp [setHeader, getHeader, h, ih]

theorem getHeader_setHeader_ne (hs : Headers) (k k2 v : String)
    (hne : k2 ≠ k) : getHeader (setHeader hs k v) k2 = getHeader hs k2 := by
  have hkk2 : (k == k2) = false := by
    simp [Ne.symm hne]
  induction hs with
  | nil => simp [setHeader, getHeader, hkk2]
  | cons p rest ih =>
    obtain ⟨k0, v0⟩ := p
    by_cases h : (k0 == k) = true
    · have hk0 : k0 = k := by simpa using h
      subst hk0
      simp [setHeader, getHeader, h, hkk2]
    · simp only [Bool.not_eq_true] at h
      simp [setHeader, getHeader, h, ih]

/-- Were the collation the lexicographic code-point order the protocol
prescribes, signRequest would compute exactly the specified pipeline:
every step other than the sort order (content hash, canonical request
shape, credential scope, four-HMAC key chain, final signature and
Authorization formatting) matches the spec-side definitions. -/
theorem signRequest_lexicographic_collation (c : Crypto) (method : String)
    (url : ParsedURL) (headers : Headers) (body : Option String)
    (cr : Credentials) (isoNow : String) :
    getHeader (signRequest c codePointCompare method url headers body cr isoNow)
        "Authorization"
      = some (specAuthorizationValue c method url headers body cr isoNow) := by
  simp only [signRequest, getHeader_setHeader_self]
  rfl

set_option maxRecDepth 8192 in
/-- C1: the code does not sort the query pairs lexicographically as the
claim states: it sorts with the runtime localeCompare collation
(s3client.js line 76), which at the failing input, query keys B and a,
orders a before B, while the lexicographic code-point order the claim
and the AWS protocol prescribe puts B first; the canonical request and
the Authorization value therefore differ from the ones the specified
algorithm produces. -/
theorem signRequest_locale_sort_divergence :
    jsSort (queryComparator icuStyleCompare) [("B", "1"), ("a", "2")]
      = [("a", "2"), ("B", "1")] ∧
    jsSort (queryComparator codePointCompare) [("B", "1"), ("a", "2")]
      = [("B", "1"), ("a", "2")] ∧
    getHeader (signRequest mockCrypto icuStyleCompare "GET"
        ⟨"example.com", "/", [("B", "1"), ("a", "2")]⟩ [] none
        ⟨"AK", "SK", "us-east-1", "s3"⟩ "2026-10-11T01:02:03.456Z")
        "Authorization"
      ≠ some (specAuthorizationValue mockCrypto "GET"
        ⟨"example.com", "/", [("B", "1"), ("a", "2")]⟩ [] none
        ⟨"AK", "SK", "us-east-1", "s3"⟩ "2026-10-11T01:02:03.456Z") := by
  refine ⟨by decide, by decide, by decide⟩

/-- C2: for a fixed tuple of method, url, headers, body and credentials
and a frozen timestamp, two invocations of signRequest produce the same
Authorization header value. -/
theorem signRequest_deterministic (c : Crypto) (lc : String → String → Int)
    (method : String)
    (url : ParsedURL) (h1 h2 : Headers) (body : Option String)
    (cr : Credentials) (isoNow : String) (hh : h1 = h2) :
    getHeader (signRequest c lc method url h1 body cr isoNow) "Authorization"
      = getHeader (signRequest c lc method url h2 body cr isoNow)
        "Authorization" := by
  rw [hh]

theorem signRequest_deterministic_witness :
    getHeader (signRequest mockCrypto codePointCompare "GET"
        ⟨"example.com", "/k", []⟩
        [("content-type", "text/plain")] none
        ⟨"AK", "SK", "us-east-1", "s3"⟩ "2026-10-11T01:02:03.456Z") "Authorization"
      = getHeader (signRequest mockCrypto codePointCompare "GET"
        ⟨"example.com", "/k", []⟩
        [("content-type", "text/plain")] none
        ⟨"AK", "SK", "us-east-1", "s3"⟩ "2026-10-11T01:02:03.456Z") "Authorization" :=
  signRequest_deterministic mockCrypto codePointCompare "GET"
    ⟨"example.com", "/k", []⟩
    [("content-type", "text/plain")] [("content-type", "text/plain")] none
    ⟨"AK", "SK", "us-east-1", "s3"⟩ "2026-10-11T01:02:03.456Z" rfl

/-- C10: the header map signRequest returns contains exactly the entries
x-amz-date, x-amz-content-sha256, host and Authorization added or
overwritten, and every other key of the input map is looked up
unchanged. -/
theorem signRequest_frame (c : Crypto) (lc : String → String → Int)
    (method : String) (url : ParsedURL)
    (headers : Headers) (body : Option String) (cr : Credentials)
    (isoNow : String) :
    getHeader (signRequest c lc method url headers body cr isoNow) "x-amz-date"
        = some (amzDateOf isoNow) ∧
    getHeader (signRequest c lc method url headers body cr isoNow) "x-amz-content-sha256"
        = some (specContentHash c body) ∧
    getHeader (signRequest c lc method url headers body cr isoNow) "host"
        = some url.host ∧
    (∃ v, getHeader (signRequest c lc method url headers body cr isoNow) "Authorization"
        = some v) ∧
    ∀ k, k ≠ "x-amz-date" → k ≠ "x-amz-content-sha256" → k ≠ "host" →
      k ≠ "Authorization" →
      getHeader (signRequest c lc method url headers body cr isoNow) k
        = getHeader headers k := by
  refine ⟨?_, ?_, ?_, ?_, ?_⟩
  · simp only [signRequest]
    rw [getHeader_setHeader_ne _ _ _ _ (by decide),
      getHeader_setHeader_ne _ _ _ _ (by decide),
      getHeader_setHeader_ne _ _ _ _ (by decide),
      getHeader_setHeader_self]
    rfl
  · simp only [signRequest]
    rw [getHeader_setHeader_ne _ _ _ _ (by decide),
      getHeader_setHeader_ne _ _ _ _ (by decide),
      getHeader_setHeader_self]
    rfl
  · simp only [signRequest]
    rw [getHeader_setHeader_ne _ _ _ _ (by decide),
      getHeader_setHeader_self]
  · simp only [signRequest]
    exact ⟨_, getHeader_setHeader_self _ _ _⟩
  · intro k hk1 hk2 hk3 hk4
    simp only [signRequest]
    rw [getHeader_setHeader_ne _ _ _ _ hk4,
      getHeader_setHeader_ne _ _ _ _ hk3,
      getHeader_setHeader_ne _ _ _ _ hk2,
      getHeader_setHeader_ne _ _ _ _ hk1]

theorem signRequest_frame_witness :
    getHeader (signRequest mockCrypto codePointCompare "PUT"
      ⟨"example.com", "/a b", [("y", "2")]⟩
      [("content-type", "text/plain")] (some "data")
      ⟨"AK", "SK", "us-east-1", "s3"⟩ "2026-10-11T01:02:03.456Z") "content-type"
      = some "text/plain" :=
  ((signRequest_frame mockCrypto codePointCompare "PUT"
    ⟨"example.com", "/a b", [("y", "2")]⟩
    [("content-type", "text/plain")] (some "data")
    ⟨"AK", "SK", "us-east-1", "s3"⟩ "2026-10-11T01:02:03.456Z").2.2.2.2
    "content-type" (by decide) (by decide) (by decide) (by decide)).trans rfl

/-- C3: session init answers with the 400 validation error exactly when
fileName, fileSize or totalChunks is missing (falsy) or fileSize exceeds
the 100 MB maximum; at exactly the maximum it succeeds, one byte over it
returns the 400 error. -/
theorem initPost_validation (body : InitBody) (rb : List Nat) (now : Nat) :
    ((initPost body rb now).isBadRequest = true ↔
      (truthyStr body.fileName = false ∨ truthyNat body.fileSize = false ∨
       truthyNat body.totalChunks = false ∨
       body.fileSize.getD 0 > MAX_FILE_SIZE)) ∧
    (∀ name ft chunks sm, name ≠ "" → chunks ≠ 0 →
      (initPost ⟨some name, some MAX_FILE_SIZE, ft, some chunks, sm⟩ rb
        now).isBadRequest = false ∧
      (initPost ⟨some name, some (MAX_FILE_SIZE + 1), ft, some chunks, sm⟩ rb
        now).isBadRequest = true) := by
  constructor
  · cases hf : truthyStr body.fileName <;>
      cases hs : truthyNat body.fileSize <;>
        cases hc : truthyNat body.totalChunks <;>
          by_cases hz : body.fileSize.getD 0 > MAX_FILE_SIZE <;>
            simp [initPost, hf, hs, hc, hz, InitOutcome.isBadRequest]
  · intro name ft chunks sm hname hchunks
    have h1 : truthyStr (some name) = true := by simp [truthyStr, hname]
    have h2 : truthyNat (some chunks) = true := by simp [truthyNat, hchunks]
    constructor
    · simp [initPost, h1, h2, truthyNat, MAX_FILE_SIZE, InitOutcome.isBadRequest,
        hchunks]
    · simp [initPost, h1, h2, truthyNat, MAX_FILE_SIZE, InitOutcome.isBadRequest,
        hchunks]

theorem initPost_validation_witness :
    (initPost ⟨some "a.png", some MAX_FILE_SIZE, some "image/png", some 2,
      some "s3"⟩ [0, 1] 5).isBadRequest = false ∧
    (initPost ⟨some "a.png", some (MAX_FILE_SIZE + 1), some "image/png", some 2,
      some "s3"⟩ [0, 1] 5).isBadRequest = true :=
  (initPost_validation initBodyExample [0, 1] 5).2 "a.png" (some "image/png") 2
    (some "s3") (by decide) (by decide)

/-- C4: on success, init normalizes storageMode into the closed tag set
with telegram as the default for an unrecognized tag, derives the
uploadId from the 16 random bytes, persists a pending session with empty
uploadedChunks under key upload:(uploadId) with TTL 3600, and returns
success, the uploadId and the chunk size. -/
theorem initPost_success_shape (body : InitBody) (rb : List Nat) (now : Nat)
    (r : InitSuccess) (h : initPost body rb now = .ok r) :
    r.stored.key = "upload:" ++ r.respUploadId ∧
    r.stored.value.uploadId = generateUploadId rb ∧
    r.stored.value.status = "pending" ∧
    r.stored.value.uploadedChunks = [] ∧
    r.stored.expirationTtl = 3600 ∧
    r.respSuccess = true ∧
    r.respUploadId = generateUploadId rb ∧
    r.respChunkSize = CHUNK_SIZE ∧
    r.stored.value.storageMode ∈ validModes ∧
    (∀ m, body.storageMode = some m → m ∈ validModes →
      r.stored.value.storageMode = m) ∧
    (∀ m, body.storageMode = some m → m ∉ validModes →
      r.stored.value.storageMode = "telegram") ∧
    (body.storageMode = none → r.stored.value.storageMode = "telegram") := by
  unfold initPost at h
  split at h
  · simp at h
  · split at h
    · simp at h
    · simp only [InitOutcome.ok.injEq] at h
      subst h
      refine ⟨rfl, rfl, rfl, rfl, rfl, rfl, rfl, rfl, ?_, ?_, ?_, ?_⟩
      · cases hm : body.storageMode with
        | none => simp [validModes]
        | some m =>
          by_cases hmem : m ∈ validModes
          · simp [hmem]
          · have hmem2 : ¬(m = "telegram" ∨ m = "r2" ∨ m = "s3" ∨
                m = "discord" ∨ m = "huggingface") := by
              simpa [validModes] using hmem
            simp [validModes, hmem2]
      · intro m hm hmem
        simp [hm, hmem]
      · intro m hm hmem
        simp [hm, hmem]
      · intro hm
        simp [hm]

theorem initPost_success_shape_witness :
    initSuccessExample.stored.key = "upload:" ++ initSuccessExample.respUploadId ∧
    initSuccessExample.stored.value.status = "pending" :=
  ⟨(initPost_success_shape initBodyExample [0, 1] 5 initSuccessExample
      (by decide)).1,
   (initPost_success_shape initBodyExample [0, 1] 5 initSuccessExample
      (by decide)).2.2.1⟩

theorem matchesFront_self (l : List Char) : matchesFront l l = true := by
  induction l with
  | nil => rfl
  | cons c rest ih => simp [matchesFront, ih]

theorem occursIn_append_self (xs pat : List Char) :
    occursIn pat (xs ++ pat) = true := by
  induction xs with
  | nil =>
    cases pat with
    | nil => rfl
    | cons c rest => simp [occursIn, matchesFront_self]
  | cons x xs ih => simp [occursIn, ih]

theorem strContainsSub_append_self (pre b : String) :
    strContainsSub (pre ++ b) b = true := by
  unfold strContainsSub
  rw [show (pre ++ b).toList = pre.toList ++ b.toList by
    simp [String.toList, String.data_append]]
  exact occursIn_append_self _ _

/-- C5 counterexample: headObject at a 500 response whose body is boom
raises an error that names only the status and does not carry the
provider message, so null-or-message-carrying-error is not exhaustive as
claimed for stat. -/
theorem headObject_error_drops_provider_message :
    headObjectHandle ⟨500, "boom", []⟩ = .error "S3 HeadObject failed (500)" ∧
    strContainsSub "S3 HeadObject failed (500)" "boom" = false := by
  constructor
  · rfl
  · rfl

/-- C5 amended: get and stat return null exactly on 404; on any other
non-success status (206 excepted for get) get raises an error carrying
the provider body while stat raises an error naming only the status; on
success both return non-null. -/
theorem s3_get_stat_error_mapping (r : HttpResponse) :
    (r.status = 404 →
      getObjectHandle r = .ok none ∧ headObjectHandle r = .ok none) ∧
    (respOk r = false → r.status ≠ 206 → r.status ≠ 404 →
      getObjectHandle r = .error ("S3 GetObject failed (" ++
        natToString r.status ++ "): " ++ r.body) ∧
      strContainsSub ("S3 GetObject failed (" ++ natToString r.status ++
        "): " ++ r.body) r.body = true ∧
      headObjectHandle r = .error ("S3 HeadObject failed (" ++
        natToString r.status ++ ")")) ∧
    (respOk r = true →
      getObjectHandle r = .ok (some r) ∧
      (∃ i, headObjectHandle r = .ok (some i))) ∧
    (respOk r = false → r.status = 206 → getObjectHandle r = .ok (some r)) := by
  refine ⟨?_, ?_, ?_, ?_⟩
  · intro h404
    have hok : respOk r = false := by simp [respOk, h404]
    constructor
    · simp [getObjectHandle, hok, h404]
    · simp [headObjectHandle, hok, h404]
  · intro hok h206 h404
    refine ⟨by simp [getObjectHandle, hok, h206, h404], ?_,
      by simp [headObjectHandle, hok, h404]⟩
    · exact strContainsSub_append_self
        ("S3 GetObject failed (" ++ natToString r.status ++ "): ") r.body
  · intro hok
    refine ⟨by simp [getObjectHandle, hok], ?_⟩
    simp [headObjectHandle, hok]
  · intro hok h206
    simp [getObjectHandle, hok, h206]

theorem s3_get_stat_error_mapping_witness :
    getObjectHandle ⟨404, "", []⟩ = .ok none ∧
    headObjectHandle ⟨404, "", []⟩ = .ok none :=
  (s3_get_stat_error_mapping ⟨404, "", []⟩).1 rfl

/-- C6 counterexample: for the S3 backend the delete at a 500 response
does not return a boolean at all: it raises a structured error instead
of returning false. -/
theorem s3_delete_raises_on_failure :
    deleteObjectRun (.ok ⟨500, "boom", []⟩)
      = .error "S3 DeleteObject failed (500): boom" := by
  rfl

/-- C6 amended: the Discord and HuggingFace deletes return booleans,
false on transport failure, missing configuration or a non-success
status, never raising; the S3 delete returns true on success or 204 but
propagates transport failures and raises a structured error on any other
non-success status instead of returning false. -/
theorem delete_bool_semantics (tok hfTok hfRepo : Option String)
    (e : String) (r : HttpResponse) :
    deleteDiscordMessage tok (.error e) = false ∧
    (truthyStr tok = false → ∀ fr, deleteDiscordMessage tok fr = false) ∧
    (respOk r = false → r.status ≠ 204 →
      deleteDiscordMessage tok (.ok r) = false) ∧
    deleteHuggingFaceFile hfTok hfRepo (.error e) = false ∧
    (respOk r = false → deleteHuggingFaceFile hfTok hfRepo (.ok r) = false) ∧
    deleteObjectRun (.error e) = .error e ∧
    (respOk r = false → r.status ≠ 204 →
      deleteObjectRun (.ok r) = .error ("S3 DeleteObject failed (" ++
        natToString r.status ++ "): " ++ r.body)) ∧
    (respOk r = true → deleteObjectRun (.ok r) = .ok true) := by
  refine ⟨?_, ?_, ?_, ?_, ?_, rfl, ?_, ?_⟩
  · cases htok : truthyStr tok <;> simp [deleteDiscordMessage, htok]
  · intro htok fr
    simp [deleteDiscordMessage, htok]
  · intro hok h204
    cases htok : truthyStr tok <;> simp [deleteDiscordMessage, htok, hok, h204]
  · cases hcfg : (truthyStr hfTok && truthyStr hfRepo) <;>
      simp [deleteHuggingFaceFile, hcfg]
  · intro hok
    cases hcfg : (truthyStr hfTok && truthyStr hfRepo) <;>
      simp [deleteHuggingFaceFile, hcfg, hok]
  · intro hok h204
    simp [deleteObjectRun, deleteObjectHandle, hok, h204]
  · intro hok
    simp [deleteObjectRun, deleteObjectHandle, hok]

theorem delete_bool_semantics_witness :
    deleteDiscordMessage (some "tok") (.ok ⟨500, "x", []⟩) = false :=
  (delete_bool_semantics (some "tok") none none "e" ⟨500, "x", []⟩).2.2.1
    (by decide) (by decide)

/-- C7: when a webhook URL is configured, uploadToDiscord uses the
webhook path exclusively: the result is exactly the webhook-path result
(failures included) and is independent of whatever the bot path would
have returned. -/
theorem uploadToDiscord_webhook_exclusive (env : DiscordEnv)
    (wf bf : DiscordFetch) (hw : truthyStr env.DISCORD_WEBHOOK_URL = true) :
    uploadToDiscord env wf bf = uploadViaWebhook wf ∧
    (∀ bf2, uploadToDiscord env wf bf = uploadToDiscord env wf bf2) := by
  constructor
  · simp [uploadToDiscord, hw]
  · intro bf2
    simp [uploadToDiscord, hw]

theorem uploadToDiscord_webhook_exclusive_witness :
    uploadToDiscord ⟨some "https://wh", some "bot-token", some "chan"⟩
      (.error "webhook transport failure")
      (.ok ⟨200, none, ⟨"c", "m", [⟨"a", "f.png", 7⟩]⟩⟩)
      = uploadViaWebhook (.error "webhook transport failure") :=
  (uploadToDiscord_webhook_exclusive
    ⟨some "https://wh", some "bot-token", some "chan"⟩
    (.error "webhook transport failure")
    (.ok ⟨200, none, ⟨"c", "m", [⟨"a", "f.png", 7⟩]⟩⟩) (by decide)).1

/-- C9 counterexample: a store failure during the status read is
answered with the 500 server-error response, not with the 404 NotFound
the claim states. -/
theorem getStatus_store_failure_not_404 :
    getStatus (some "abc") (.error "kv down") = .serverError "kv down" ∧
    getStatus (some "abc") (.error "kv down") ≠ .notFound := by
  constructor
  · rfl
  · decide

/-- C9 amended: a store failure is fail-closed for session reads in the
sense that no session data is returned: getStatus answers with the 500
server error carrying the store message (not with 404); and fail-open
for quota checks: checkGuestUpload treats a failing store as Allowed. -/
theorem store_failure_policy (uploadId : Option String) (e msg : String)
    (env : GuestEnv) (ip today : String) (fileSize : Nat)
    (hid : truthyStr uploadId = true)
    (henv : env.GUEST_UPLOAD = some "true")
    (hsz : fileSize ≤ parseIntOrDefault env.GUEST_MAX_FILE_SIZE (5 * 1024 * 1024)) :
    getStatus uploadId (.error e) = .serverError e ∧
    (∀ t, getStatus uploadId (.error e) ≠ .okTask t) ∧
    (checkGuestUpload env ip today fileSize (.failing msg)).allowed = true := by
  have hsz2 : ¬ fileSize > parseIntOrDefault env.GUEST_MAX_FILE_SIZE
      (5 * 1024 * 1024) := Nat.not_lt.mpr hsz
  refine ⟨by simp [getStatus, hid], ?_, ?_⟩
  · intro t
    simp [getStatus, hid]
  · simp [checkGuestUpload, henv, hsz2]

theorem store_failure_policy_witness :
    getStatus (some "u1") (.error "boom") = .serverError "boom" ∧
    (checkGuestUpload ⟨some "true", none, none⟩ "1.2.3.4" "2026-10-11" 100
      (.failing "boom")).allowed = true :=
  ⟨(store_failure_policy (some "u1") "boom" "x" ⟨some "true", none, none⟩
      "1.2.3.4" "2026-10-11" 100 (by decide) rfl (by decide)).1,
   (store_failure_policy (some "u1") "boom" "boom" ⟨some "true", none, none⟩
      "1.2.3.4" "2026-10-11" 100 (by decide) rfl (by decide)).2.2⟩

theorem string_data_inj {s t : String} (h : s.data = t.data) : s = t := by
  cases s
  cases t
  exact congrArg String.mk h

theorem digitChar_toNat (d : Nat) (h : d < 10) :
    (Char.ofNat (48 + d)).toNat = 48 + d := by
  interval_cases d <;> decide

theorem digitChar_isDigit (d : Nat) (h : d < 10) :
    (Char.ofNat (48 + d)).isDigit = true := by
  interval_cases d <;> decide

theorem natDigitsAux_ne_nil (fuel n : Nat) (h : n < fuel) :
    natDigitsAux fuel n ≠ [] := by
  cases fuel with
  | zero => omega
  | succ f =>
    unfold natDigitsAux
    split <;> simp

theorem natDigitsAux_digits (fuel : Nat) : ∀ n, n < fuel →
    ∀ c ∈ natDigitsAux fuel n, c.isDigit = true := by
  induction fuel with
  | zero => intro n h; omega
  | succ f ih =>
    intro n h c hc
    unfold natDigitsAux at hc
    by_cases h10 : n < 10
    · simp [h10] at hc
      subst hc
      exact digitChar_isDigit n h10
    · simp only [if_neg h10, List.mem_append, List.mem_singleton] at hc
      rcases hc with hc | hc
      · exact ih (n / 10) (by omega) c hc
      · subst hc
        exact digitChar_isDigit (n % 10) (by omega)

theorem natDigitsAux_foldl (fuel : Nat) : ∀ n, n < fuel → ∀ a : Nat,
    (natDigitsAux fuel n).foldl (fun acc c => acc * 10 + (c.toNat - 48)) a
      = a * 10 ^ (natDigitsAux fuel n).length + n := by
  induction fuel with
  | zero => intro n h; omega
  | succ f ih =>
    intro n h a
    unfold natDigitsAux
    by_cases h10 : n < 10
    · simp [h10, List.foldl, digitChar_toNat n h10]
    · rw [if_neg h10, List.foldl_append, ih (n / 10) (by omega) a]
      have hd : (Char.ofNat (48 + n % 10)).toNat = 48 + n % 10 :=
        digitChar_toNat (n % 10) (by omega)
      simp only [List.foldl, hd, List.length_append, List.length_cons,
        List.length_nil, Nat.add_sub_cancel_left, Nat.zero_add]
      have hmod : n / 10 * 10 + n % 10 = n := by omega
      rw [pow_succ]
      calc (a * 10 ^ (natDigitsAux f (n / 10)).length + n / 10) * 10 + n % 10
          = a * (10 ^ (natDigitsAux f (n / 10)).length * 10) +
            (n / 10 * 10 + n % 10) := by ring
        _ = a * (10 ^ (natDigitsAux f (n / 10)).length * 10) + n := by rw [hmod]

theorem takeWhile_of_all {p : Char → Bool} :
    ∀ l : List Char, (∀ c ∈ l, p c = true) → l.takeWhile p = l := by
  intro l h
  induction l with
  | nil => rfl
  | cons c rest ih =>
    have hc := h c (by simp)
    simp [List.takeWhile_cons, hc, ih (fun x hx => h x (by simp [hx]))]

theorem parseJsInt_natToString (n : Nat) :
    parseJsInt (natToString n) = some n := by
  have hlt : n < n + 1 := Nat.lt_succ_self n
  have hall := natDigitsAux_digits (n + 1) n hlt
  have hne := natDigitsAux_ne_nil (n + 1) n hlt
  unfold parseJsInt natToString natDigits
  rw [show (String.mk (natDigitsAux (n + 1) n)).toList = natDigitsAux (n + 1) n
    from rfl]
  rw [takeWhile_of_all _ hall]
  simp only [List.isEmpty_eq_true, hne, if_false]
  rw [natDigitsAux_foldl (n + 1) n hlt 0]
  simp

theorem kvGetEntry_kvPutEntry_self (es : List KVEntry) (k v : String)
    (ttl : Option Nat) : kvGetEntry (kvPutEntry es k v ttl) k = some v := by
  induction es with
  | nil => simp [kvPutEntry, kvGetEntry]
  | cons e rest ih =>
    by_cases h : (e.key == k) = true
    · simp [kvPutEntry, kvGetEntry, h]
    · simp only [Bool.not_eq_true] at h
      simp [kvPutEntry, kvGetEntry, h, ih]

theorem kvGetEntry_kvPutEntry_ne (es : List KVEntry) (k k2 v : String)
    (ttl : Option Nat) (h : k2 ≠ k) :
    kvGetEntry (kvPutEntry es k v ttl) k2 = kvGetEntry es k2 := by
  have hkk : (k == k2) = false := by simp [Ne.symm h]
  induction es with
  | nil => simp [kvPutEntry, kvGetEntry, hkk]
  | cons e rest ih =>
    by_cases he : (e.key == k) = true
    · have he2 : e.key = k := by simpa using he
      simp [kvPutEntry, kvGetEntry, he, hkk, he2]
    · simp only [Bool.not_eq_true] at he
      simp [kvPutEntry, kvGetEntry, he, ih]

theorem guestKey_inj_ip (ip ip2 today : String)
    (h : guestKey ip today = guestKey ip2 today) : ip = ip2 := by
  unfold guestKey at h
  have hd := congrArg String.data h
  simp only [String.data_append] at hd
  have h1 := List.append_cancel_right hd
  have h2 := List.append_cancel_right h1
  exact string_data_inj (List.append_cancel_left h2)

theorem guestKey_inj_day (ip d1 d2 : String)
    (h : guestKey ip d1 = guestKey ip d2) : d1 = d2 := by
  unfold guestKey at h
  have hd := congrArg String.data h
  simp only [String.data_append] at hd
  exact string_data_inj (List.append_cancel_left hd)

theorem parseIntOrDefault_pos (s : Option String) (d : Nat) (hd : 0 < d) :
    0 < parseIntOrDefault s d := by
  cases s with
  | none => simpa [parseIntOrDefault] using hd
  | some str =>
    cases hp : parseJsInt str with
    | none => simpa [parseIntOrDefault, hp] using hd
    | some n =>
      cases n with
      | zero => simpa [parseIntOrDefault, hp] using hd
      | succ m => simp [parseIntOrDefault, hp]

theorem iterIncrement_avail (env : GuestEnv) (ip today : String)
    (henv : env.GUEST_UPLOAD = some "true") (es : List KVEntry)
    (h0 : kvGetEntry es (guestKey ip today) = none) :
    ∀ n, ∃ es2, iterIncrement env ip today n (.avail es) = .avail es2 ∧
      storedCount es2 (guestKey ip today) = n ∧
      (∀ k2, k2 ≠ guestKey ip today → kvGetEntry es2 k2 = kvGetEntry es k2) := by
  intro n
  induction n with
  | zero => exact ⟨es, rfl, by simp [storedCount, h0], fun k2 _ => rfl⟩
  | succ n ih =>
    obtain ⟨es2, heq, hcnt, hframe⟩ := ih
    refine ⟨kvPutEntry es2 (guestKey ip today)
      (natToString (storedCount es2 (guestKey ip today) + 1)) (some 86400),
      ?_, ?_, ?_⟩
    · simp [iterIncrement, heq, incrementGuestCount, henv]
    · rw [hcnt]
      simp [storedCount, kvGetEntry_kvPutEntry_self, parseJsInt_natToString]
    · intro k2 hk2
      rw [kvGetEntry_kvPutEntry_ne _ _ _ _ _ hk2, hframe k2 hk2]

/-- C8: checkGuestUpload decides in order: 401 when guest uploads are
disabled, 413 when fileSize exceeds the guest cap, 429 with remaining 0
when the per-IP per-day counter has reached dailyLimit, otherwise
allowed with remaining = dailyLimit minus counter; incrementGuestCount
bumps that same counter with a 24-hour TTL, so after dailyLimit
increments the next check for the same IP and day is rate-limited while
a different IP on the same day or another day for the same IP is
allowed. -/
theorem guest_quota_behavior (env : GuestEnv) (ip today : String)
    (fileSize : Nat) (kv : KVState) (es : List KVEntry) :
    (env.GUEST_UPLOAD ≠ some "true" →
      checkGuestUpload env ip today fileSize kv =
        ⟨false, some "未启用访客上传，请登录后操作", some 401, none⟩) ∧
    (env.GUEST_UPLOAD = some "true" →
      fileSize > parseIntOrDefault env.GUEST_MAX_FILE_SIZE (5 * 1024 * 1024) →
      checkGuestUpload env ip today fileSize kv =
        ⟨false, some "访客上传限制：文件大小超过上限", some 413, none⟩) ∧
    (env.GUEST_UPLOAD = some "true" →
      fileSize ≤ parseIntOrDefault env.GUEST_MAX_FILE_SIZE (5 * 1024 * 1024) →
      storedCount es (guestKey ip today) ≥
        parseIntOrDefault env.GUEST_DAILY_LIMIT 10 →
      checkGuestUpload env ip today fileSize (.avail es) =
        ⟨false, some "访客每日上传上限，今日已用完", some 429, some 0⟩) ∧
    (env.GUEST_UPLOAD = some "true" →
      fileSize ≤ parseIntOrDefault env.GUEST_MAX_FILE_SIZE (5 * 1024 * 1024) →
      storedCount es (guestKey ip today) <
        parseIntOrDefault env.GUEST_DAILY_LIMIT 10 →
      checkGuestUpload env ip today fileSize (.avail es) =
        ⟨true, none, none, some (parseIntOrDefault env.GUEST_DAILY_LIMIT 10 -
          storedCount es (guestKey ip today))⟩) ∧
    (env.GUEST_UPLOAD = some "true" →
      incrementGuestCount env ip today (.avail es) =
        .avail (kvPutEntry es (guestKey ip today)
          (natToString (storedCount es (guestKey ip today) + 1))
          (some 86400))) ∧
    (env.GUEST_UPLOAD = some "true" →
      kvGetEntry es (guestKey ip today) = none →
      fileSize ≤ parseIntOrDefault env.GUEST_MAX_FILE_SIZE (5 * 1024 * 1024) →
      checkGuestUpload env ip today fileSize
        (iterIncrement env ip today
          (parseIntOrDefault env.GUEST_DAILY_LIMIT 10) (.avail es)) =
        ⟨false, some "访客每日上传上限，今日已用完", some 429, some 0⟩ ∧
      (∀ ip2, ip2 ≠ ip → kvGetEntry es (guestKey ip2 today) = none →
        (checkGuestUpload env ip2 today fileSize
          (iterIncrement env ip today
            (parseIntOrDefault env.GUEST_DAILY_LIMIT 10)
            (.avail es))).allowed = true) ∧
      (∀ day2, day2 ≠ today → kvGetEntry es (guestKey ip day2) = none →
        (checkGuestUpload env ip day2 fileSize
          (iterIncrement env ip today
            (parseIntOrDefault env.GUEST_DAILY_LIMIT 10)
            (.avail es))).allowed = true)) := by
  refine ⟨?_, ?_, ?_, ?_, ?_, ?_⟩
  · intro h
    have hb : (env.GUEST_UPLOAD == some "true") = false := by simp [h]
    simp [checkGuestUpload, hb]
  · intro h hsz
    simp [checkGuestUpload, h, hsz]
  · intro h hsz hcnt
    have hsz2 : ¬ fileSize >
        parseIntOrDefault env.GUEST_MAX_FILE_SIZE (5 * 1024 * 1024) :=
      Nat.not_lt.mpr hsz
    simp [checkGuestUpload, h, hsz2, hcnt]
  · intro h hsz hcnt
    have hsz2 : ¬ fileSize >
        parseIntOrDefault env.GUEST_MAX_FILE_SIZE (5 * 1024 * 1024) :=
      Nat.not_lt.mpr hsz
    have hcnt2 : ¬ storedCount es (guestKey ip today) ≥
        parseIntOrDefault env.GUEST_DAILY_LIMIT 10 := Nat.not_le.mpr hcnt
    simp [checkGuestUpload, h, hsz2, hcnt2]
  · intro h
    simp [incrementGuestCount, h]
  · intro h h0 hsz
    have hL : 0 < parseIntOrDefault env.GUEST_DAILY_LIMIT 10 :=
      parseIntOrDefault_pos _ _ (by omega)
    have hsz2 : ¬ fileSize >
        parseIntOrDefault env.GUEST_MAX_FILE_SIZE (5 * 1024 * 1024) :=
      Nat.not_lt.mpr hsz
    obtain ⟨es2, heq, hcnt, hframe⟩ := iterIncrement_avail env ip today h es h0
      (parseIntOrDefault env.GUEST_DAILY_LIMIT 10)
    refine ⟨?_, ?_, ?_⟩
    · rw [heq]
      have hge : storedCount es2 (guestKey ip today) ≥
          parseIntOrDefault env.GUEST_DAILY_LIMIT 10 := hcnt.ge
      simp [checkGuestUpload, h, hsz2, hge]
    · intro ip2 hip2 hfresh
      have hkey : guestKey ip2 today ≠ guestKey ip today :=
        fun hc => hip2 (guestKey_inj_ip _ _ _ hc)
      rw [heq]
      have hc2 : storedCount es2 (guestKey ip2 today) = 0 := by
        simp [storedCount, hframe _ hkey, hfresh]
      have hcnt2 : ¬ storedCount es2 (guestKey ip2 today) ≥
          parseIntOrDefault env.GUEST_DAILY_LIMIT 10 := by
        rw [hc2]
        exact Nat.not_le.mpr hL
      simp [checkGuestUpload, h, hsz2, hcnt2]
    · intro day2 hday2 hfresh
      have hkey : guestKey ip day2 ≠ guestKey ip today :=
        fun hc => hday2 (guestKey_inj_day _ _ _ hc)
      rw [heq]
      have hc2 : storedCount es2 (guestKey ip day2) = 0 := by
        simp [storedCount, hframe _ hkey, hfresh]
      have hcnt2 : ¬ storedCount es2 (guestKey ip day2) ≥
          parseIntOrDefault env.GUEST_DAILY_LIMIT 10 := by
        rw [hc2]
        exact Nat.not_le.mpr hL
      simp [checkGuestUpload, h, hsz2, hcnt2]

theorem guest_quota_behavior_witness :
    checkGuestUpload ⟨some "true", none, none⟩ "1.2.3.4" "2026-10-11" 100
      (iterIncrement ⟨some "true", none, none⟩ "1.2.3.4" "2026-10-11"
        (parseIntOrDefault none 10) (.avail [])) =
      ⟨false, some "访客每日上传上限，今日已用完", some 429, some 0⟩ :=
  ((guest_quota_behavior ⟨some "true", none, none⟩ "1.2.3.4" "2026-10-11" 100
    (.avail []) []).2.2.2.2.2 rfl rfl (by decide)).1

end TGBed
